import Mathlib

/-! Verification of the POS-SRE transaction settlement core, shallowly embedded
from the Python source under `app/models` and `app/services`.

Modelling conventions:
* Money is modelled as `ℚ` (the spec mandates fixed-point-equivalent decimal
  semantics for monetary values).
* Python `int` fields (quantities, counters) are modelled as `ℤ`.
* Timestamps (`datetime.utcnow()`) are modelled as an integer number of
  seconds `now : ℤ`; `timedelta.days` on a positive delta is floor division
  by 86400, modelled with `Int.fdiv`.
* The database session is modelled as an explicit `Store` value threaded
  through each service operation.  Raising an exception after
  `db.session.rollback()` is modelled by returning `Except.error`: the
  caller keeps the pre-call store, which is exactly the rollback semantics
  (no partial write is visible).
* Unique-indexed tables (items keyed by `item_id`, coupons keyed by their
  upper-cased `code`) are modelled as functions `String → Option _`;
  the rentals table, whose queries use `.first()` on a non-unique filter,
  is modelled as a `List` scanned front to back.
* Error messages are modelled as constant strings; the Python code
  interpolates names/quantities into them, which no claim depends on.
-/

namespace POS

/-- Embedding of `ItemType` constants from `app/models/item.py`. -/
inductive ItemType where
  | sale
  | rental
deriving DecidableEq, Repr

/-- Embedding of `PaymentMethod` constants from `app/models/transaction.py`. -/
inductive PaymentMethod where
  | cash
  | credit
  | debit
deriving DecidableEq, Repr

/-- Embedding of `TransactionType` constants from `app/models/transaction.py`. -/
inductive TransactionType where
  | sale
  | rental
  | ret
deriving DecidableEq, Repr

/-- Embedding of `Item` model (`app/models/item.py`): business key `item_id`, price,
stock quantity, type and soft-delete flag. -/
structure Item where
  item_id : String
  name : String
  price : ℚ
  quantity : ℤ
  item_type : ItemType := ItemType.sale
  is_active : Bool := true
  low_stock_threshold : ℤ := 10
deriving DecidableEq, Repr

/-- Embedding of `Item.add_stock` (`item.py` lines 63-72): negative amounts raise
`ValueError`, otherwise the quantity is incremented. -/
def Item.add_stock (it : Item) (amount : ℤ) : Except String Item :=
  if amount < 0 then Except.error ("Amount cannot be negative")
  else Except.ok { it with quantity := it.quantity + amount }

/-- Embedding of `Item.remove_stock` (`item.py` lines 74-92): negative amounts raise,
amounts above the available quantity raise, otherwise decrement. -/
def Item.remove_stock (it : Item) (amount : ℤ) : Except String Item :=
  if amount < 0 then Except.error ("Amount cannot be negative")
  else if amount > it.quantity then Except.error ("Insufficient stock")
  else Except.ok { it with quantity := it.quantity - amount }

/-- Embedding of `Coupon` model (`app/models/coupon.py`). `expires_at` is an optional
timestamp, `max_uses` an optional cap (`none` = unlimited). -/
structure Coupon where
  code : String
  discount_percent : ℚ := 0
  discount_amount : ℚ := 0
  minimum_purchase : ℚ := 0
  max_uses : Option ℤ := none
  times_used : ℤ := 0
  is_active : Bool := true
  expires_at : Option ℤ := none
deriving DecidableEq, Repr

/-- Embedding of `Coupon.is_expired` (`coupon.py` lines 54-58). -/
def Coupon.is_expired (c : Coupon) (now : ℤ) : Bool :=
  match c.expires_at with
  | none => false
  | some e => decide (now > e)

/-- Embedding of `Coupon.is_usage_exceeded` (`coupon.py` lines 60-64). -/
def Coupon.is_usage_exceeded (c : Coupon) : Bool :=
  match c.max_uses with
  | none => false
  | some m => decide (c.times_used ≥ m)

/-- Embedding of `Coupon.is_valid` (`coupon.py` lines 66-72): active, not expired,
usage not exceeded.  Note it does NOT look at `minimum_purchase`. -/
def Coupon.is_valid (c : Coupon) (now : ℤ) : Bool :=
  c.is_active && !(c.is_expired now) && !c.is_usage_exceeded

/-- Embedding of `Coupon.can_apply_to_amount` (`coupon.py` lines 74-84). -/
def Coupon.can_apply_to_amount (c : Coupon) (now : ℤ) (amount : ℚ) : Bool :=
  c.is_valid now && decide (amount ≥ c.minimum_purchase)

/-- Embedding of `Coupon.calculate_discount` (`coupon.py` lines 86-103). -/
def Coupon.calculate_discount (c : Coupon) (now : ℤ) (amount : ℚ) : ℚ :=
  if !(c.can_apply_to_amount now amount) then 0
  else if c.discount_percent > 0 then amount * (c.discount_percent / 100)
  else if c.discount_amount > 0 then min c.discount_amount amount
  else 0

/-- Embedding of `Coupon.use` (`coupon.py` lines 105-107): increment the usage counter. -/
def Coupon.use (c : Coupon) : Coupon :=
  { c with times_used := c.times_used + 1 }

/-- Embedding of `TransactionItem` (`app/models/transaction.py` lines 177-213): a
quantity × unit-price snapshot referencing an item. -/
structure TransactionItem where
  item_id : String
  quantity : ℤ
  unit_price : ℚ
deriving DecidableEq, Repr

/-- Embedding of `Transaction` model (`app/models/transaction.py`): financial fields all
default to 0, mirroring the column defaults. `coupon_code` stands for the
`coupon_id` foreign key (coupons are keyed by code here). -/
structure Transaction where
  transaction_type : TransactionType := TransactionType.sale
  coupon_code : Option String := none
  subtotal : ℚ := 0
  discount_amount : ℚ := 0
  tax_amount : ℚ := 0
  total : ℚ := 0
  payment_method : PaymentMethod := PaymentMethod.cash
  amount_tendered : ℚ := 0
  change_given : ℚ := 0
  line_items : List TransactionItem := []
deriving DecidableEq, Repr

/-- Embedding of `sum(item.quantity * item.unit_price for item in self.items.all())`. -/
def sumLineTotals : List TransactionItem → ℚ
  | [] => 0
  | ti :: rest => (ti.quantity : ℚ) * ti.unit_price + sumLineTotals rest

/-- Embedding of `Transaction.calculate_totals` (`transaction.py` lines 77-102): subtotal
from the line items; if a coupon is associated and still valid, the
percentage discount overwrites `discount_amount` (fixed amounts are never
read); tax on the discounted amount; total = taxable + tax.  The `coupon`
argument models the `Coupon.query.get(self.coupon_id)` lookup, which in
`create_sale` observes the already-incremented usage counter. -/
def Transaction.calculate_totals (t : Transaction) (coupon : Option Coupon)
    (now : ℤ) (tax_rate : ℚ) : Transaction :=
  let subtotal := sumLineTotals t.line_items
  let discount :=
    match t.coupon_code, coupon with
    | some _, some cp =>
        if cp.is_valid now then subtotal * (cp.discount_percent / 100)
        else t.discount_amount
    | _, _ => t.discount_amount
  let taxable := subtotal - discount
  { t with subtotal := subtotal, discount_amount := discount,
           tax_amount := taxable * tax_rate,
           total := taxable + taxable * tax_rate }

/-- Embedding of `Transaction.apply_payment` (`transaction.py` lines 104-113): change is
computed only for cash payments. -/
def Transaction.apply_payment (t : Transaction) (amount_tendered : ℚ) : Transaction :=
  { t with amount_tendered := amount_tendered,
           change_given :=
             if t.payment_method = PaymentMethod.cash then
               max 0 (amount_tendered - t.total)
             else t.change_given }

/-- Embedding of `Rental` model (`app/models/rental.py`). `customer_phone` stands for the
`customer_id` foreign key (customers are identified by phone), `item_id`
for the item foreign key. -/
structure Rental where
  customer_phone : String
  item_id : String
  quantity : ℤ := 1
  rental_price : ℚ
  rental_date : ℤ
  due_date : ℤ
  returned : Bool := false
  return_date : Option ℤ := none
  late_fee : ℚ := 0
deriving DecidableEq, Repr

/-- Embedding of `Rental.is_overdue` (`rental.py` lines 50-54): a returned rental is
never overdue. -/
def Rental.is_overdue (r : Rental) (now : ℤ) : Bool :=
  if r.returned then false else decide (now > r.due_date)

/-- Embedding of `Rental.days_overdue` (`rental.py` lines 56-61): 0 unless overdue,
otherwise `max 0 delta.days` with `delta.days` the floor of the difference
in days (timestamps are in seconds). -/
def Rental.days_overdue (r : Rental) (now : ℤ) : ℤ :=
  if r.is_overdue now then max 0 (Int.fdiv (now - r.due_date) 86400)
  else 0

/-- Embedding of `Rental.calculate_late_fee` (`rental.py` lines 63-74):
days overdue × fee per day × quantity. -/
def Rental.calculate_late_fee (r : Rental) (now : ℤ) (fee_per_day : ℚ) : ℚ :=
  (r.days_overdue now : ℚ) * fee_per_day * (r.quantity : ℚ)

/-- Embedding of `Rental.process_return` (`rental.py` lines 76-94), faithfully in source
order: the `returned` flag is set to `True` FIRST, then the late fee is
computed on the already-flagged record (`is_overdue` then reports false),
then `quantity` units are restored to the associated item via
`Item.add_stock`. -/
def Rental.process_return (r : Rental) (it : Item) (now : ℤ) (fee_per_day : ℚ) :
    Except String (Rental × Item × ℚ) :=
  let r1 := { r with returned := true, return_date := some now }
  let r2 := { r1 with late_fee := r1.calculate_late_fee now fee_per_day }
  match it.add_stock r.quantity with
  | Except.error e => Except.error e
  | Except.ok it2 => Except.ok (r2, it2, r2.late_fee)

/-- The database session state threaded through the services: items keyed by
their unique `item_id`, coupons keyed by their unique upper-cased code,
customers as a set of phone numbers, rentals and transactions as tables. -/
structure Store where
  items : String → Option Item
  coupons : String → Option Coupon
  customers : List String
  rentals : List Rental
  transactions : List Transaction

/-- One cart line as submitted to `create_sale`/`create_rental`:
`{'item_id': ..., 'quantity': ...}`. -/
structure SaleLine where
  item_id : String
  quantity : ℤ
deriving DecidableEq, Repr

/-- Point-update of the item table at an existing key (the ORM mutates the
row in place; the table is keyed by the unique `item_id`). -/
def updateItem (items : String → Option Item) (k : String) (it : Item) :
    String → Option Item :=
  fun j => if j = k then some it else items j

/-- The per-line loop of `TransactionService.create_sale` (lines 74-97):
resolve the item by business key, fail if absent, fail if the requested
quantity exceeds current stock, snapshot a `TransactionItem` at the current
price, and decrement stock, threading the mutated item table. -/
def processSaleLines (items : String → Option Item) :
    List SaleLine → Except String ((String → Option Item) × List TransactionItem)
  | [] => Except.ok (items, [])
  | l :: rest =>
    match items l.item_id with
    | none => Except.error ("Item not found")
    | some it =>
      if it.quantity < l.quantity then Except.error ("Insufficient stock")
      else
        match it.remove_stock l.quantity with
        | Except.error e => Except.error e
        | Except.ok it2 =>
          match processSaleLines (updateItem items l.item_id it2) rest with
          | Except.error e => Except.error e
          | Except.ok (items2, tis) =>
              Except.ok (items2,
                ({ item_id := l.item_id, quantity := l.quantity,
                   unit_price := it.price } : TransactionItem) :: tis)

/-- ASCII uppercase of a character, as Python `str.upper` acts on the
ASCII coupon codes of this system. -/
def upperChar (c : Char) : Char :=
  if c.isLower then Char.ofNat (c.toNat - 32) else c

/-- ASCII uppercase of a string (`code.upper()`); coupon codes are
normalized with it at creation and lookup. -/
def upperStr (s : String) : String :=
  ⟨s.data.map upperChar⟩

/-- The coupon step of `create_sale` (lines 99-105): look the code up
(upper-cased, and only when the code is truthy), and when the coupon is
`is_valid`, associate it and increment its usage counter.  Returns the
updated coupon table, the associated coupon key (if any) and the updated
coupon as later observed by `calculate_totals`. -/
def applySaleCoupon (coupons : String → Option Coupon) (now : ℤ)
    (coupon_code : Option String) :
    (String → Option Coupon) × Option String × Option Coupon :=
  match coupon_code with
  | none => (coupons, none, none)
  | some c =>
    if c = "" then (coupons, none, none)
    else
      match coupons (upperStr c) with
      | none => (coupons, none, none)
      | some cp =>
        if cp.is_valid now then
          (fun k => if k = upperStr c then some cp.use else coupons k,
           some (upperStr c), some cp.use)
        else (coupons, none, none)

/-- Embedding of `if customer_phone:` get-or-create step shared by sale and rental. -/
def resolveCustomer (customers : List String) (phone : Option String) :
    List String :=
  match phone with
  | none => customers
  | some p => if p = "" ∨ p ∈ customers then customers else p :: customers

/-- Embedding of `TransactionService.create_sale` (`transaction_service.py` lines 33-122).
An `Except.error` result models `db.session.rollback()` followed by
`raise TransactionError(...)`: the caller keeps the pre-call store, so no
stock decrement, customer, transaction row or coupon increment survives a
failure.  On success the committed store and the transaction are returned.
The engine always calls `calculate_totals()` with its default tax rate of
8 percent. -/
def TransactionService.create_sale (st : Store) (now : ℤ) (lines : List SaleLine)
    (payment_method : PaymentMethod) (amount_tendered : ℚ)
    (coupon_code : Option String) (customer_phone : Option String) :
    Except String (Store × Transaction) :=
  let customers2 := resolveCustomer st.customers customer_phone
  match processSaleLines st.items lines with
  | Except.error e => Except.error e
  | Except.ok (items2, tis) =>
    let cstep := applySaleCoupon st.coupons now coupon_code
    let t0 : Transaction :=
      { transaction_type := TransactionType.sale,
        payment_method := payment_method,
        coupon_code := cstep.2.1,
        line_items := tis }
    let t1 := (t0.calculate_totals cstep.2.2 now (8 / 100)).apply_payment amount_tendered
    let st2 : Store :=
      { st with items := items2, coupons := cstep.1,
                customers := customers2,
                transactions := t1 :: st.transactions }
    Except.ok (st2, t1)

/-- The per-line loop of `TransactionService.create_rental` (lines 166-204):
like the sale loop but additionally requiring `item_type == RENTAL` and
creating a `Rental` row per line with `due_date = now + rental_days`
(`timedelta(days=rental_days)`, timestamps in seconds). -/
def processRentalLines (phone : String) (now rental_days : ℤ)
    (items : String → Option Item) :
    List SaleLine →
      Except String ((String → Option Item) × List TransactionItem × List Rental)
  | [] => Except.ok (items, [], [])
  | l :: rest =>
    match items l.item_id with
    | none => Except.error ("Item not found")
    | some it =>
      if it.item_type ≠ ItemType.rental then
        Except.error ("Item is not available for rental")
      else if it.quantity < l.quantity then Except.error ("Insufficient stock")
      else
        match it.remove_stock l.quantity with
        | Except.error e => Except.error e
        | Except.ok it2 =>
          match processRentalLines phone now rental_days
              (updateItem items l.item_id it2) rest with
          | Except.error e => Except.error e
          | Except.ok (items2, tis, rs) =>
              Except.ok (items2,
                ({ item_id := l.item_id, quantity := l.quantity,
                   unit_price := it.price } : TransactionItem) :: tis,
                ({ customer_phone := phone, item_id := l.item_id,
                   quantity := l.quantity, rental_price := it.price,
                   rental_date := now,
                   due_date := now + rental_days * 86400 } : Rental) :: rs)

/-- Embedding of `TransactionService.create_rental` (`transaction_service.py` lines
124-219): customer phone mandatory (empty is falsy), every line must be a
rental-type item with sufficient stock, a `Rental` row is created per line,
and totals are computed with the default 8 percent tax rate and no coupon. -/
def TransactionService.create_rental (st : Store) (now : ℤ)
    (customer_phone : String) (lines : List SaleLine) (rental_days : ℤ)
    (payment_method : PaymentMethod) (amount_tendered : ℚ) :
    Except String (Store × Transaction) :=
  if customer_phone = "" then
    Except.error ("Customer phone is required for rentals")
  else
    let customers2 := resolveCustomer st.customers (some customer_phone)
    match processRentalLines customer_phone now rental_days st.items lines with
    | Except.error e => Except.error e
    | Except.ok (items2, tis, rs) =>
      let t0 : Transaction :=
        { transaction_type := TransactionType.rental,
          payment_method := payment_method,
          line_items := tis }
      let t1 := (t0.calculate_totals none now (8 / 100)).apply_payment amount_tendered
      let st2 : Store :=
        { st with items := items2, customers := customers2,
                  rentals := rs ++ st.rentals,
                  transactions := t1 :: st.transactions }
      Except.ok (st2, t1)

/-- Embedding of `Rental.query.filter_by(customer_id=..., item_id=..., returned=False)
.first()`: first matching active rental in table order. -/
def findFirstRental (phone key : String) : List Rental → Option Rental
  | [] => none
  | r :: rs =>
    if r.customer_phone = phone ∧ r.item_id = key ∧ r.returned = false then some r
    else findFirstRental phone key rs

/-- In-place ORM update of the rental row found by `findFirstRental`. -/
def updateFirstRental (phone key : String) (r2 : Rental) :
    List Rental → List Rental
  | [] => []
  | r :: rs =>
    if r.customer_phone = phone ∧ r.item_id = key ∧ r.returned = false then r2 :: rs
    else r :: updateFirstRental phone key r2 rs

/-- Embedding of `TransactionService.process_return` (`transaction_service.py` lines
221-290): resolve customer and item, find the first active rental for the
pair, call `Rental.process_return()` (default fee of 2.00 per day), and
synthesize a RETURN transaction only when the late fee is positive.  The
`quantity` argument of the Python function is never read by its body. -/
def TransactionService.process_return (st : Store) (now : ℤ)
    (customer_phone item_id : String) (quantity : ℤ) :
    Except String (Store × Rental × ℚ × Option Transaction) :=
  if ¬ (customer_phone ∈ st.customers) then Except.error ("Customer not found")
  else
    match st.items item_id with
    | none => Except.error ("Item not found")
    | some it =>
      match findFirstRental customer_phone item_id st.rentals with
      | none => Except.error ("No active rental found for this item")
      | some r =>
        match r.process_return it now 2 with
        | Except.error e => Except.error e
        | Except.ok (r2, it2, fee) =>
          let tOpt : Option Transaction :=
            if fee > 0 then
              some { transaction_type := TransactionType.ret,
                     payment_method := PaymentMethod.cash,
                     subtotal := fee, total := fee }
            else none
          let st2 : Store :=
            { st with items := updateItem st.items item_id it2,
                      rentals := updateFirstRental customer_phone item_id r2 st.rentals,
                      transactions :=
                        match tOpt with
                        | some t => t :: st.transactions
                        | none => st.transactions }
          Except.ok (st2, r2, fee, tOpt)

/-- Embedding of `RentalService.process_return` (`rental_service.py` lines 90-112): an
already-returned rental is rejected with `RentalError` BEFORE any mutation;
otherwise the model-level `Rental.process_return` runs and the result is
committed. -/
def RentalService.process_return (r : Rental) (it : Item) (now : ℤ)
    (late_fee_per_day : ℚ) : Except String (Rental × Item × ℚ) :=
  if r.returned then Except.error ("Rental has already been returned")
  else r.process_return it now late_fee_per_day

/-- Embedding of `InventoryService.add_stock` (`inventory_service.py` lines 177-200):
non-positive amounts are rejected with `InventoryError`, then the model
increments. -/
def InventoryService.add_stock (it : Item) (amount : ℤ) : Except String Item :=
  if amount ≤ 0 then Except.error ("Amount must be positive")
  else it.add_stock amount

/-- Embedding of `InventoryService.remove_stock` (`inventory_service.py` lines 202-228):
non-positive amounts rejected, amounts above the available quantity
rejected with `InventoryError`, then the model decrements. -/
def InventoryService.remove_stock (it : Item) (amount : ℤ) : Except String Item :=
  if amount ≤ 0 then Except.error ("Amount must be positive")
  else if amount > it.quantity then Except.error ("Insufficient stock")
  else it.remove_stock amount

/-- One ledger operation in a sequence of service-level stock calls. -/
inductive StockOp where
  | add (amount : ℤ)
  | remove (amount : ℤ)
deriving DecidableEq, Repr

/-- Apply a sequence of `InventoryService` stock operations, failing (and
thus aborting the sequence) at the first rejected call. -/
def applyStockOps (it : Item) : List StockOp → Except String Item
  | [] => Except.ok it
  | StockOp.add n :: rest =>
    match InventoryService.add_stock it n with
    | Except.error e => Except.error e
    | Except.ok it2 => applyStockOps it2 rest
  | StockOp.remove n :: rest =>
    match InventoryService.remove_stock it n with
    | Except.error e => Except.error e
    | Except.ok it2 => applyStockOps it2 rest

/-- Net sum of the amounts in a sequence of stock operations
(adds positive, removes negative). -/
def stockOpsNet : List StockOp → ℤ
  | [] => 0
  | StockOp.add n :: rest => n + stockOpsNet rest
  | StockOp.remove n :: rest => -n + stockOpsNet rest

/-- Stock on hand at a key, reading absent rows as 0. -/
def qtyAt (items : String → Option Item) (k : String) : ℤ :=
  match items k with
  | none => 0
  | some it => it.quantity

/-- A cart line that fails validation against an item table: the item is
missing, or the requested quantity exceeds its current stock. -/
def lineInvalid (items : String → Option Item) (l : SaleLine) : Bool :=
  match items l.item_id with
  | none => true
  | some it => decide (it.quantity < l.quantity)

/-- Total quantity the line-item snapshots charge against key `k`. -/
def lineSumFor (k : String) : List TransactionItem → ℤ
  | [] => 0
  | ti :: rest => (if ti.item_id = k then ti.quantity else 0) + lineSumFor k rest

theorem lineInvalid_updateItem (items : String → Option Item) (k0 : String)
    (it it2 : Item) (l : SaleLine) (hk : items k0 = some it)
    (hq : it2.quantity ≤ it.quantity)
    (h : lineInvalid items l = true) :
    lineInvalid (updateItem items k0 it2) l = true := by
  unfold lineInvalid at h ⊢
  unfold updateItem
  by_cases hkey : l.item_id = k0
  · subst hkey
    rw [hk] at h
    simp only [if_pos rfl]
    simp at h ⊢
    omega
  · simp only [if_neg hkey]
    exact h

theorem remove_stock_ok_elim (it it2 : Item) (n : ℤ)
    (h : it.remove_stock n = Except.ok it2) :
    0 ≤ n ∧ n ≤ it.quantity ∧ it2 = { it with quantity := it.quantity - n } := by
  unfold Item.remove_stock at h
  by_cases h1 : n < 0
  · simp [h1] at h
  · by_cases h2 : n > it.quantity
    · simp [h1, h2] at h
    · simp [h1, h2] at h
      exact ⟨by omega, by omega, h.symm⟩

theorem processSaleLines_error_of_invalid (items : String → Option Item)
    (lines : List SaleLine)
    (h : ∃ l ∈ lines, lineInvalid items l = true) :
    ∃ e, processSaleLines items lines = Except.error e := by
  induction lines generalizing items with
  | nil => simp at h
  | cons l rest ih =>
    rcases h with ⟨l', hl', hinv⟩
    unfold processSaleLines
    cases hit : items l.item_id with
    | none => exact ⟨_, rfl⟩
    | some it =>
      by_cases hq : it.quantity < l.quantity
      · refine ⟨"Insufficient stock", ?_⟩
        simp [hq]
      · cases hrm : it.remove_stock l.quantity with
        | error e =>
          refine ⟨e, ?_⟩
          simp [hq, hrm]
        | ok it2 =>
          obtain ⟨hn0, hnq, hit2⟩ := remove_stock_ok_elim it it2 l.quantity hrm
          have hle : it2.quantity ≤ it.quantity := by
            rw [hit2]
            simp
            omega
          rcases List.mem_cons.mp hl' with heq | hmem
          · subst heq
            unfold lineInvalid at hinv
            rw [hit] at hinv
            simp at hinv
            omega
          · obtain ⟨e, he⟩ := ih (updateItem items l.item_id it2)
              ⟨l', hmem, lineInvalid_updateItem items l.item_id it it2 l' hit hle hinv⟩
            refine ⟨e, ?_⟩
            simp [hq, hrm, he]

theorem processSaleLines_qtyAt (lines : List SaleLine)
    (items items2 : String → Option Item) (tis : List TransactionItem)
    (h : processSaleLines items lines = Except.ok (items2, tis)) (k : String) :
    qtyAt items2 k = qtyAt items k - lineSumFor k tis := by
  induction lines generalizing items tis with
  | nil =>
    unfold processSaleLines at h
    injection h with h
    injection h with h1 h2
    subst h1
    subst h2
    simp [lineSumFor]
  | cons l rest ih =>
    unfold processSaleLines at h
    split at h
    · exact absurd h (by simp)
    · next it hit =>
      split at h
      · exact absurd h (by simp)
      · next hq =>
        split at h
        · exact absurd h (by simp)
        · next it2 hrm =>
          split at h
          · exact absurd h (by simp)
          · next items3 tis3 hrec =>
            obtain ⟨hn0, hnq, hit2⟩ := remove_stock_ok_elim it it2 l.quantity hrm
            injection h with h
            injection h with h1 h2
            subst h1
            subst h2
            have hih := ih (updateItem items l.item_id it2) tis3 hrec
            unfold lineSumFor
            by_cases hkey : l.item_id = k
            · subst hkey
              have hupd : qtyAt (updateItem items l.item_id it2) l.item_id = qtyAt items l.item_id - l.quantity := by
                unfold qtyAt updateItem
                rw [hit, hit2]
                simp
              rw [hih, hupd]
              simp
              omega
            · have hk2 : ¬ k = l.item_id := fun hh => hkey hh.symm
              have hupd : qtyAt (updateItem items l.item_id it2) k = qtyAt items k := by
                unfold qtyAt updateItem
                simp [hk2]
              rw [hih, hupd]
              simp [hkey]

theorem processSaleLines_nonneg (lines : List SaleLine)
    (items items2 : String → Option Item) (tis : List TransactionItem)
    (h : processSaleLines items lines = Except.ok (items2, tis))
    (h0 : ∀ k, 0 ≤ qtyAt items k) (k : String) : 0 ≤ qtyAt items2 k := by
  induction lines generalizing items tis with
  | nil =>
    unfold processSaleLines at h
    injection h with h
    injection h with h1 h2
    subst h1
    exact h0 k
  | cons l rest ih =>
    unfold processSaleLines at h
    split at h
    · exact absurd h (by simp)
    · next it hit =>
      split at h
      · exact absurd h (by simp)
      · next hq =>
        split at h
        · exact absurd h (by simp)
        · next it2 hrm =>
          split at h
          · exact absurd h (by simp)
          · next items3 tis3 hrec =>
            obtain ⟨hn0, hnq, hit2⟩ := remove_stock_ok_elim it it2 l.quantity hrm
            injection h with h
            injection h with h1 h2
            subst h1
            refine ih (updateItem items l.item_id it2) tis3 hrec ?_
            intro j
            unfold qtyAt updateItem
            by_cases hj : j = l.item_id
            · subst hj
              rw [if_pos rfl, hit2]
              simp
              have := h0 l.item_id
              unfold qtyAt at this
              rw [hit] at this
              omega
            · rw [if_neg hj]
              exact h0 j

/-- Concrete item from the spec's worked example: `SAL001`, price 9.99,
quantity 50, sale type. -/
def itemSAL001 : Item :=
  { item_id := "SAL001", name := "Widget", price := 999 / 100, quantity := 50 }

/-- Concrete rental-type item, price 5.00, quantity 10. -/
def itemRENT01 : Item :=
  { item_id := "RENT01", name := "Drill", price := 5, quantity := 10,
    item_type := ItemType.rental }

/-- A 10-percent coupon with a minimum purchase of 100. -/
def couponPCT10 : Coupon :=
  { code := "PCT10", discount_percent := 10, minimum_purchase := 100 }

/-- A fixed-amount coupon of 5.00 (the spec's `FLAT5`). -/
def couponFLAT5 : Coupon :=
  { code := "FLAT5", discount_amount := 5 }

/-- A rental of 2 units of `RENT01` made at time 0 and due at day 7
(the spec's worked rental example). -/
def rentalEx : Rental :=
  { customer_phone := "5551234", item_id := "RENT01", quantity := 2,
    rental_price := 5, rental_date := 0, due_date := 7 * 86400 }

/-- Concrete store used by witnesses and counterexamples. -/
def demoStore : Store :=
  { items := fun k =>
      if k = "SAL001" then some itemSAL001
      else if k = "RENT01" then some itemRENT01
      else none,
    coupons := fun k =>
      if k = "PCT10" then some couponPCT10
      else if k = "FLAT5" then some couponFLAT5
      else none,
    customers := ["5551234"],
    rentals := [],
    transactions := [] }

/-- The demo store with the example rental outstanding. -/
def demoStoreRented : Store :=
  { demoStore with rentals := [rentalEx] }

/-- Transaction component of a settlement result, if it succeeded. -/
def saleTransactionOf (r : Except String (Store × Transaction)) :
    Option Transaction :=
  match r with
  | Except.ok (_, t) => some t
  | Except.error _ => none

/-- Store component of a settlement result, if it succeeded. -/
def saleStoreOf (r : Except String (Store × Transaction)) : Option Store :=
  match r with
  | Except.ok (s, _) => some s
  | Except.error _ => none

/-- Store component of an engine-level return result. -/
def returnStoreOf (r : Except String (Store × Rental × ℚ × Option Transaction)) :
    Option Store :=
  match r with
  | Except.ok (s, _, _, _) => some s
  | Except.error _ => none

/-- Rental component of an engine-level return result. -/
def returnRentalOf (r : Except String (Store × Rental × ℚ × Option Transaction)) :
    Option Rental :=
  match r with
  | Except.ok (_, rr, _, _) => some rr
  | Except.error _ => none

/-- Late-fee component of an engine-level return result. -/
def returnFeeOf (r : Except String (Store × Rental × ℚ × Option Transaction)) :
    Option ℚ :=
  match r with
  | Except.ok (_, _, f, _) => some f
  | Except.error _ => none

/-- Whether an engine-level return produced a RETURN transaction. -/
def returnMadeTransaction (r : Except String (Store × Rental × ℚ × Option Transaction)) :
    Option Bool :=
  match r with
  | Except.ok (_, _, _, some _) => some true
  | Except.ok (_, _, _, none) => some false
  | Except.error _ => none

/-- Error message of a service result, if it failed. -/
def returnErrorOf (r : Except String (Store × Rental × ℚ × Option Transaction)) :
    Option String :=
  match r with
  | Except.ok _ => none
  | Except.error e => some e

/-- Shape of a successful `create_sale`: the line loop succeeded, the
returned transaction is the totals-and-payment computation over the line
snapshots and the coupon step, and the committed store carries exactly the
mutated items, coupons, customers and the new transaction row. -/
theorem create_sale_ok_elim (st : Store) (now : ℤ) (lines : List SaleLine)
    (pm : PaymentMethod) (amt : ℚ) (cc phone : Option String)
    (st2 : Store) (t : Transaction)
    (h : TransactionService.create_sale st now lines pm amt cc phone =
      Except.ok (st2, t)) :
    ∃ items2 tis,
      processSaleLines st.items lines = Except.ok (items2, tis) ∧
      t = Transaction.apply_payment
            (Transaction.calculate_totals
              { transaction_type := TransactionType.sale,
                payment_method := pm,
                coupon_code := (applySaleCoupon st.coupons now cc).2.1,
                line_items := tis }
              (applySaleCoupon st.coupons now cc).2.2 now (8 / 100)) amt ∧
      st2.items = items2 ∧
      st2.coupons = (applySaleCoupon st.coupons now cc).1 ∧
      st2.customers = resolveCustomer st.customers phone ∧
      st2.rentals = st.rentals ∧
      st2.transactions = t :: st.transactions := by
  unfold TransactionService.create_sale at h
  split at h
  · exact absurd h (by simp)
  · next items2 tis hrec =>
    refine ⟨items2, tis, hrec, ?_⟩
    injection h with h
    injection h with h1 h2
    subst h1
    subst h2
    exact ⟨rfl, rfl, rfl, rfl, rfl, rfl⟩

/-- Shape of a successful `create_rental`: the phone was non-empty, the
rental line loop succeeded, the transaction is the no-coupon totals over
the line snapshots, and the committed store carries the mutated items, the
new rentals and the new transaction row. -/
theorem create_rental_ok_elim (st : Store) (now : ℤ) (phone : String)
    (lines : List SaleLine) (days : ℤ) (pm : PaymentMethod) (amt : ℚ)
    (st2 : Store) (t : Transaction)
    (h : TransactionService.create_rental st now phone lines days pm amt =
      Except.ok (st2, t)) :
    phone ≠ "" ∧
    ∃ items2 tis rs,
      processRentalLines phone now days st.items lines =
        Except.ok (items2, tis, rs) ∧
      t = Transaction.apply_payment
            (Transaction.calculate_totals
              { transaction_type := TransactionType.rental,
                payment_method := pm,
                line_items := tis }
              none now (8 / 100)) amt ∧
      st2.items = items2 ∧
      st2.coupons = st.coupons ∧
      st2.rentals = rs ++ st.rentals ∧
      st2.transactions = t :: st.transactions := by
  unfold TransactionService.create_rental at h
  split at h
  · exact absurd h (by simp)
  · next hphone =>
    refine ⟨hphone, ?_⟩
    cases hrec : processRentalLines phone now days st.items lines with
    | error e => rw [hrec] at h; exact absurd h (by simp)
    | ok out =>
      rw [hrec] at h
      obtain ⟨items2, tis, rs⟩ := out
      refine ⟨items2, tis, rs, rfl, ?_⟩
      injection h with h
      injection h with h1 h2
      subst h1
      subst h2
      exact ⟨rfl, rfl, rfl, rfl, rfl⟩

/-- A settlement result with a transaction succeeded with some store. -/
theorem saleTransactionOf_eq_some (r : Except String (Store × Transaction))
    (t : Transaction) (h : saleTransactionOf r = some t) :
    ∃ s, r = Except.ok (s, t) := by
  unfold saleTransactionOf at h
  split at h
  · next s t1 =>
    injection h with h
    subst h
    exact ⟨s, rfl⟩
  · exact absurd h (by simp)

/-- A settlement result with a store succeeded with some transaction. -/
theorem saleStoreOf_eq_some (r : Except String (Store × Transaction))
    (s : Store) (h : saleStoreOf r = some s) :
    ∃ t, r = Except.ok (s, t) := by
  unfold saleStoreOf at h
  split at h
  · next s1 t1 =>
    injection h with h
    subst h
    exact ⟨t1, rfl⟩
  · exact absurd h (by simp)

/-- An engine-return result with a store succeeded. -/
theorem returnStoreOf_eq_some
    (r : Except String (Store × Rental × ℚ × Option Transaction))
    (s : Store) (h : returnStoreOf r = some s) :
    ∃ rr fee tr, r = Except.ok (s, rr, fee, tr) := by
  unfold returnStoreOf at h
  split at h
  · next s1 rr fee tr =>
    injection h with h
    subst h
    exact ⟨rr, fee, tr, rfl⟩
  · exact absurd h (by simp)

/-- The rental line loop never drives any item's stock negative. -/
theorem processRentalLines_nonneg (lines : List SaleLine) (phone : String)
    (now days : ℤ) (items items2 : String → Option Item)
    (tis : List TransactionItem) (rs : List Rental)
    (h : processRentalLines phone now days items lines =
      Except.ok (items2, tis, rs))
    (h0 : ∀ k, 0 ≤ qtyAt items k) (k : String) : 0 ≤ qtyAt items2 k := by
  induction lines generalizing items tis rs with
  | nil =>
    unfold processRentalLines at h
    injection h with h
    injection h with h1 h2
    subst h1
    exact h0 k
  | cons l rest ih =>
    unfold processRentalLines at h
    split at h
    · exact absurd h (by simp)
    · next it hit =>
      split at h
      · exact absurd h (by simp)
      · split at h
        · exact absurd h (by simp)
        · next hq =>
          split at h
          · exact absurd h (by simp)
          · next it2 hrm =>
            split at h
            · exact absurd h (by simp)
            · next items3 tis3 rs3 hrec =>
              obtain ⟨hn0, hnq, hit2⟩ := remove_stock_ok_elim it it2 l.quantity hrm
              injection h with h
              injection h with h1 h2
              subst h1
              refine ih (updateItem items l.item_id it2) tis3 rs3 hrec ?_
              intro j
              unfold qtyAt updateItem
              by_cases hj : j = l.item_id
              · subst hj
                rw [if_pos rfl, hit2]
                simp
                omega
              · rw [if_neg hj]
                exact h0 j

/-- The rental record as mutated by the first two statements of
`Rental.process_return`: flagged returned with the return date set. -/
def Rental.flagReturned (r : Rental) (now : ℤ) : Rental :=
  { r with returned := true, return_date := some now }

/-- Shape of a successful model-level `Rental.process_return`: the flag and
return date are set, the late fee is the one computed on the
ALREADY-FLAGGED record, and the item is restocked by the rental's
quantity (which `add_stock` requires to be nonnegative). -/
theorem rental_process_return_ok_elim (r : Rental) (it : Item) (now : ℤ)
    (fee_per_day : ℚ) (r2 : Rental) (it2 : Item) (fee : ℚ)
    (h : r.process_return it now fee_per_day = Except.ok (r2, it2, fee)) :
    0 ≤ r.quantity ∧
    it2 = { it with quantity := it.quantity + r.quantity } ∧
    r2 = { r.flagReturned now with
           late_fee := (r.flagReturned now).calculate_late_fee now fee_per_day } ∧
    fee = r2.late_fee := by
  unfold Rental.process_return at h
  cases hadd : it.add_stock r.quantity with
  | error e => rw [hadd] at h; exact absurd h (by simp)
  | ok it3 =>
    rw [hadd] at h
    unfold Item.add_stock at hadd
    by_cases hneg : r.quantity < 0
    · simp [hneg] at hadd
    · simp [hneg] at hadd
      injection h with h
      injection h with h1 h
      injection h with h2 h3
      subst h1
      subst h2
      subst h3
      exact ⟨by omega, hadd.symm, rfl, rfl⟩

/-- Shape of a successful engine-level `process_return`: customer and item
resolved, first active rental found, model-level return succeeded, a
RETURN transaction exists exactly when the late fee is positive, and the
committed store holds the restocked item and the updated rental. -/
theorem engine_process_return_ok_elim (st : Store) (now : ℤ)
    (phone key : String) (q : ℤ) (st2 : Store) (r2 : Rental) (fee : ℚ)
    (tr : Option Transaction)
    (h : TransactionService.process_return st now phone key q =
      Except.ok (st2, r2, fee, tr)) :
    phone ∈ st.customers ∧
    ∃ it r it2,
      st.items key = some it ∧
      findFirstRental phone key st.rentals = some r ∧
      r.process_return it now 2 = Except.ok (r2, it2, fee) ∧
      st2.items = updateItem st.items key it2 ∧
      st2.rentals = updateFirstRental phone key r2 st.rentals ∧
      tr = (if fee > 0 then
              some { transaction_type := TransactionType.ret,
                     payment_method := PaymentMethod.cash,
                     subtotal := fee, total := fee }
            else none) := by
  unfold TransactionService.process_return at h
  split at h
  · exact absurd h (by simp)
  · next hcust =>
    refine ⟨by simpa using hcust, ?_⟩
    split at h
    · exact absurd h (by simp)
    · next it hit =>
      split at h
      · exact absurd h (by simp)
      · next r hr =>
        cases hpr : r.process_return it now 2 with
        | error e => rw [hpr] at h; exact absurd h (by simp)
        | ok out =>
          rw [hpr] at h
          obtain ⟨r3, it2, fee3⟩ := out
          refine ⟨it, r, it2, hit, hr, ?_⟩
          injection h with h
          injection h with h1 h
          injection h with h2 h
          injection h with h3 h4
          subst h1
          subst h2
          subst h3
          subst h4
          exact ⟨hpr, rfl, rfl, rfl⟩

/-- An engine-return result with a rental succeeded. -/
theorem returnRentalOf_eq_some
    (r : Except String (Store × Rental × ℚ × Option Transaction))
    (rr : Rental) (h : returnRentalOf r = some rr) :
    ∃ s fee tr, r = Except.ok (s, rr, fee, tr) := by
  unfold returnRentalOf at h
  split at h
  · next s1 rr1 fee tr =>
    injection h with h
    subst h
    exact ⟨s1, fee, tr, rfl⟩
  · exact absurd h (by simp)

/-- Shape of a successful `InventoryService.add_stock`: strictly positive
amount, quantity incremented. -/
theorem service_add_stock_ok_elim (it it3 : Item) (n : ℤ)
    (h : InventoryService.add_stock it n = Except.ok it3) :
    0 < n ∧ it3 = { it with quantity := it.quantity + n } := by
  unfold InventoryService.add_stock Item.add_stock at h
  by_cases h1 : n ≤ 0
  · simp [h1] at h
  · have h2 : ¬ n < 0 := by omega
    simp [h1, h2] at h
    exact ⟨by omega, h.symm⟩

/-- Shape of a successful `InventoryService.remove_stock`: strictly
positive amount within stock, quantity decremented. -/
theorem service_remove_stock_ok_elim (it it3 : Item) (n : ℤ)
    (h : InventoryService.remove_stock it n = Except.ok it3) :
    0 < n ∧ n ≤ it.quantity ∧ it3 = { it with quantity := it.quantity - n } := by
  unfold InventoryService.remove_stock Item.remove_stock at h
  by_cases h1 : n ≤ 0
  · simp [h1] at h
  · by_cases h2 : n > it.quantity
    · simp [h1, h2] at h
    · have h3 : ¬ n < 0 := by omega
      simp [h1, h2, h3] at h
      exact ⟨by omega, by omega, h.symm⟩

/-- Every item of the concrete store has nonnegative stock. -/
theorem demoStore_items_nonneg : ∀ k, 0 ≤ qtyAt demoStore.items k := by
  intro k
  unfold qtyAt demoStore
  by_cases h1 : k = "SAL001"
  · simp [h1, itemSAL001]
  · by_cases h2 : k = "RENT01"
    · simp [h1, h2, itemRENT01]
    · simp [h1, h2]

end POS

namespace POS

/-- Claim C1: if some cart line of a sale references a missing item or
requests more than that item's current stock, `create_sale` fails with a
`TransactionError`.  The `Except.error` result models raise-after-rollback:
the caller's store is the unchanged pre-call store, so no stock decrement
(including those of earlier lines of the same cart), no `Transaction` or
`TransactionItem` row and no coupon usage increment survives. -/
theorem create_sale_error_on_invalid_line (st : Store) (now : ℤ)
    (lines : List SaleLine) (pm : PaymentMethod) (amt : ℚ)
    (cc phone : Option String)
    (h : ∃ l ∈ lines, lineInvalid st.items l = true) :
    ∃ e, TransactionService.create_sale st now lines pm amt cc phone =
      Except.error e := by
  obtain ⟨e, he⟩ := processSaleLines_error_of_invalid st.items lines h
  refine ⟨e, ?_⟩
  unfold TransactionService.create_sale
  rw [he]

/-- Witness for C1: on the concrete store, a cart whose second line asks for
100 units of `SAL001` (stock 50) after a fine first line is rejected. -/
theorem create_sale_error_on_invalid_line_witness :
    ∃ e, TransactionService.create_sale demoStore 0
        [{ item_id := "SAL001", quantity := 5 },
         { item_id := "SAL001", quantity := 100 }]
        PaymentMethod.cash 0 (some "FLAT5") (some "5551234") =
      Except.error e :=
  create_sale_error_on_invalid_line demoStore 0 _ _ _ _ _ (by decide)

/-- The spec's worked sale: 5 units of `SAL001` at 9.99, cash 60, no
coupon, settled against `demoStore` at time 0. -/
def saleExample : Except String (Store × Transaction) :=
  TransactionService.create_sale demoStore 0
    [{ item_id := "SAL001", quantity := 5 }] PaymentMethod.cash 60 none none

/-- Expected settled transaction of `saleExample`: subtotal 49.95,
tax 3.996, total 53.946, change 6.054. -/
def saleExampleTransaction : Transaction :=
  { transaction_type := TransactionType.sale,
    subtotal := 4995 / 100,
    discount_amount := 0,
    tax_amount := 3996 / 1000,
    total := 53946 / 1000,
    payment_method := PaymentMethod.cash,
    amount_tendered := 60,
    change_given := 6054 / 1000,
    line_items := [{ item_id := "SAL001", quantity := 5, unit_price := 999 / 100 }] }

/-- Claim C3: a settled no-coupon sale has subtotal = Σ quantity × unit
price over its line snapshots, tax = subtotal × 0.08, total = subtotal +
tax, and each item's stock drops by exactly the total quantity its lines
charged against it; in particular the spec's `SAL001` example settles to
subtotal 49.95, tax 3.996, total 53.946 and remaining stock 45. -/
theorem create_sale_totals_no_coupon :
    (∀ (st : Store) (now : ℤ) (lines : List SaleLine) (pm : PaymentMethod)
        (amt : ℚ) (phone : Option String) (t : Transaction),
      saleTransactionOf
          (TransactionService.create_sale st now lines pm amt none phone) =
          some t →
        t.discount_amount = 0 ∧
        t.subtotal = sumLineTotals t.line_items ∧
        t.tax_amount = t.subtotal * (8 / 100) ∧
        t.total = t.subtotal + t.tax_amount ∧
        ∀ k, Option.map (fun s => qtyAt s.items k)
            (saleStoreOf
              (TransactionService.create_sale st now lines pm amt none phone)) =
          some (qtyAt st.items k - lineSumFor k t.line_items)) ∧
    (saleTransactionOf saleExample = some saleExampleTransaction ∧
     Option.map (fun s => qtyAt s.items "SAL001") (saleStoreOf saleExample) =
       some 45) := by
  constructor
  · intro st now lines pm amt phone t h
    unfold saleTransactionOf at h
    split at h
    · next s t1 heq =>
      injection h with h
      subst h
      obtain ⟨items2, tis, hrec, ht, hitems, _hc, _hcust, _hrent, _htr⟩ :=
        create_sale_ok_elim st now lines pm amt none phone s t1 heq
      subst ht
      refine ⟨?_, ?_, ?_, ?_, ?_⟩
      · simp [Transaction.apply_payment, Transaction.calculate_totals, applySaleCoupon]
      · simp [Transaction.apply_payment, Transaction.calculate_totals, applySaleCoupon]
      · simp [Transaction.apply_payment, Transaction.calculate_totals, applySaleCoupon]
      · simp [Transaction.apply_payment, Transaction.calculate_totals, applySaleCoupon]
      · intro k
        rw [heq]
        unfold saleStoreOf
        have hq := processSaleLines_qtyAt lines st.items items2 tis hrec k
        simp [Transaction.apply_payment, Transaction.calculate_totals,
              applySaleCoupon, hitems, hq]
    · exact absurd h (by simp)
  · constructor
    · simp [saleExample, saleExampleTransaction, TransactionService.create_sale,
            processSaleLines, updateItem, Item.remove_stock, applySaleCoupon,
            resolveCustomer, Transaction.calculate_totals, Transaction.apply_payment,
            sumLineTotals, saleTransactionOf, demoStore, itemSAL001]
      norm_num
    · simp [saleExample, TransactionService.create_sale,
            processSaleLines, updateItem, Item.remove_stock, applySaleCoupon,
            resolveCustomer, Transaction.calculate_totals, Transaction.apply_payment,
            sumLineTotals, saleStoreOf, demoStore, itemSAL001, qtyAt]

/-- Witness for C3, instantiating the universal part on the worked
`SAL001` example. -/
theorem create_sale_totals_no_coupon_witness :
    saleExampleTransaction.discount_amount = 0 ∧
    saleExampleTransaction.subtotal = sumLineTotals saleExampleTransaction.line_items ∧
    saleExampleTransaction.tax_amount = saleExampleTransaction.subtotal * (8 / 100) ∧
    saleExampleTransaction.total =
      saleExampleTransaction.subtotal + saleExampleTransaction.tax_amount ∧
    ∀ k, Option.map (fun s => qtyAt s.items k) (saleStoreOf saleExample) =
      some (qtyAt demoStore.items k - lineSumFor k saleExampleTransaction.line_items) :=
  create_sale_totals_no_coupon.1 demoStore 0
    [{ item_id := "SAL001", quantity := 5 }] PaymentMethod.cash 60 none
    saleExampleTransaction
    (by
      simp [saleExample, saleExampleTransaction, TransactionService.create_sale,
            processSaleLines, updateItem, Item.remove_stock, applySaleCoupon,
            resolveCustomer, Transaction.calculate_totals, Transaction.apply_payment,
            sumLineTotals, saleTransactionOf, demoStore, itemSAL001]
      norm_num)

/-- Expected settled transaction of the worked rental — 2 units of
`RENT01` at 5.00 for 7 days, cash 20: subtotal 10, tax 0.8, total 10.8,
change 9.2. -/
def rentalSettleExampleTransaction : Transaction :=
  { transaction_type := TransactionType.rental,
    subtotal := 10,
    discount_amount := 0,
    tax_amount := 8 / 10,
    total := 108 / 10,
    payment_method := PaymentMethod.cash,
    amount_tendered := 20,
    change_given := 92 / 10,
    line_items := [{ item_id := "RENT01", quantity := 2, unit_price := 5 }] }

/-- Claim C9: every transaction settled through the engine — `create_sale`
or `create_rental` — satisfies tax_amount = 0.08 × (subtotal −
discount_amount) and total = (subtotal − discount_amount) + tax_amount:
both entry points call `calculate_totals()` with its built-in default
8-percent rate and expose no way to pass another rate. -/
theorem engine_always_taxes_8_percent :
    (∀ (st : Store) (now : ℤ) (lines : List SaleLine) (pm : PaymentMethod)
        (amt : ℚ) (cc phone : Option String) (t : Transaction),
      saleTransactionOf
          (TransactionService.create_sale st now lines pm amt cc phone) =
          some t →
        t.tax_amount = (8 / 100) * (t.subtotal - t.discount_amount) ∧
        t.total = (t.subtotal - t.discount_amount) + t.tax_amount) ∧
    (∀ (st : Store) (now : ℤ) (phone : String) (lines : List SaleLine)
        (days : ℤ) (pm : PaymentMethod) (amt : ℚ) (t : Transaction),
      saleTransactionOf
          (TransactionService.create_rental st now phone lines days pm amt) =
          some t →
        t.tax_amount = (8 / 100) * (t.subtotal - t.discount_amount) ∧
        t.total = (t.subtotal - t.discount_amount) + t.tax_amount) := by
  constructor
  · intro st now lines pm amt cc phone t h
    obtain ⟨s, heq⟩ := saleTransactionOf_eq_some _ t h
    obtain ⟨items2, tis, _hrec, ht, _⟩ :=
      create_sale_ok_elim st now lines pm amt cc phone s t heq
    subst ht
    constructor
    · simp [Transaction.apply_payment, Transaction.calculate_totals]
      ring
    · simp [Transaction.apply_payment, Transaction.calculate_totals]
  · intro st now phone lines days pm amt t h
    obtain ⟨s, heq⟩ := saleTransactionOf_eq_some _ t h
    obtain ⟨_hphone, items2, tis, rs, _hrec, ht, _⟩ :=
      create_rental_ok_elim st now phone lines days pm amt s t heq
    subst ht
    constructor
    · simp [Transaction.apply_payment, Transaction.calculate_totals]
      ring
    · simp [Transaction.apply_payment, Transaction.calculate_totals]

/-- Witness for C9, instantiating both entry points: the `SAL001` sale
with the `FLAT5` coupon attached and the `RENT01` rental. -/
theorem engine_always_taxes_8_percent_witness :
    (saleExampleTransaction.tax_amount =
        (8 / 100) * (saleExampleTransaction.subtotal -
          saleExampleTransaction.discount_amount) ∧
      saleExampleTransaction.total =
        (saleExampleTransaction.subtotal -
          saleExampleTransaction.discount_amount) +
          saleExampleTransaction.tax_amount) ∧
    (rentalSettleExampleTransaction.tax_amount =
        (8 / 100) * (rentalSettleExampleTransaction.subtotal -
          rentalSettleExampleTransaction.discount_amount) ∧
      rentalSettleExampleTransaction.total =
        (rentalSettleExampleTransaction.subtotal -
          rentalSettleExampleTransaction.discount_amount) +
          rentalSettleExampleTransaction.tax_amount) :=
  ⟨engine_always_taxes_8_percent.1 demoStore 0
      [{ item_id := "SAL001", quantity := 5 }] PaymentMethod.cash 60 none none
      saleExampleTransaction
      (by
        simp [saleExampleTransaction, TransactionService.create_sale,
              processSaleLines, updateItem, Item.remove_stock, applySaleCoupon,
              resolveCustomer, Transaction.calculate_totals,
              Transaction.apply_payment, sumLineTotals, saleTransactionOf,
              demoStore, itemSAL001]
        norm_num),
   engine_always_taxes_8_percent.2 demoStore 0 "5551234"
      [{ item_id := "RENT01", quantity := 2 }] 7 PaymentMethod.cash 20
      rentalSettleExampleTransaction
      (by
        simp [rentalSettleExampleTransaction, TransactionService.create_rental,
              processRentalLines, updateItem, Item.remove_stock,
              resolveCustomer, Transaction.calculate_totals,
              Transaction.apply_payment, sumLineTotals, saleTransactionOf,
              demoStore, itemRENT01]
        norm_num)⟩

/-- The `SAL001` sale with the valid fixed-amount coupon `FLAT5` attached:
the settled discount_amount is 0, not min(5, 49.95) = 5, refuting C2 as
stated: `calculate_totals` multiplies by `discount_percent` only and never
reads `discount_amount` of the coupon. -/
theorem create_sale_fixed_coupon_counterexample :
    couponFLAT5.is_valid 0 = true ∧
    couponFLAT5.discount_amount = 5 ∧
    couponFLAT5.discount_percent = 0 ∧
    min couponFLAT5.discount_amount (4995 / 100 : ℚ) = 5 ∧
    Option.map Transaction.discount_amount
        (saleTransactionOf (TransactionService.create_sale demoStore 0
          [{ item_id := "SAL001", quantity := 5 }] PaymentMethod.cash 60
          (some "FLAT5") none)) = some 0 ∧
    (0 : ℚ) ≠ 5 := by
  refine ⟨by decide, by decide, by decide, by norm_num [couponFLAT5], ?_, by norm_num⟩
  simp [TransactionService.create_sale, processSaleLines, updateItem,
        Item.remove_stock, applySaleCoupon, upperStr, upperChar,
        resolveCustomer, Transaction.calculate_totals, Transaction.apply_payment,
        sumLineTotals, saleTransactionOf, demoStore, itemSAL001, couponFLAT5,
        Coupon.is_valid, Coupon.is_expired, Coupon.is_usage_exceeded, Coupon.use]

/-- Claim C2 (amended): a sale settled with a valid fixed-amount coupon
(discount_percent = 0) associates the coupon with the transaction and
increments its usage counter, but the persisted discount_amount is 0 — the
fixed-amount discount is never applied to the sale's totals. -/
theorem create_sale_fixed_coupon_discount_zero (st : Store) (now : ℤ)
    (lines : List SaleLine) (pm : PaymentMethod) (amt : ℚ) (c : String)
    (phone : Option String) (t : Transaction) (cp : Coupon)
    (hc : c ≠ "")
    (hcp : st.coupons (upperStr c) = some cp)
    (hpct : cp.discount_percent = 0)
    (hvalid : cp.is_valid now = true)
    (h : saleTransactionOf
        (TransactionService.create_sale st now lines pm amt (some c) phone) =
      some t) :
    t.coupon_code = some (upperStr c) ∧
    Option.map (fun s => s.coupons (upperStr c))
        (saleStoreOf
          (TransactionService.create_sale st now lines pm amt (some c) phone)) =
      some (some cp.use) ∧
    t.discount_amount = 0 := by
  obtain ⟨s, heq⟩ := saleTransactionOf_eq_some _ t h
  obtain ⟨items2, tis, hrec, ht, hitems, hcoup, _⟩ :=
    create_sale_ok_elim st now lines pm amt (some c) phone s t heq
  have hstep : applySaleCoupon st.coupons now (some c) =
      (fun k => if k = upperStr c then some cp.use else st.coupons k,
       some (upperStr c), some cp.use) := by
    unfold applySaleCoupon
    simp [hc, hcp, hvalid]
  subst ht
  refine ⟨?_, ?_, ?_⟩
  · simp [Transaction.apply_payment, Transaction.calculate_totals, hstep]
  · rw [heq]
    simp [saleStoreOf, hcoup, hstep]
  · simp [Transaction.apply_payment, Transaction.calculate_totals, hstep,
          Coupon.use, hpct]

/-- Witness for C2's amended theorem: the `FLAT5` sale on the concrete
store. -/
theorem create_sale_fixed_coupon_discount_zero_witness :
    (let res := TransactionService.create_sale demoStore 0
        [{ item_id := "SAL001", quantity := 5 }] PaymentMethod.cash 60
        (some "FLAT5") none
     ∃ t, saleTransactionOf res = some t ∧
       t.coupon_code = some (upperStr "FLAT5") ∧
       Option.map (fun s => s.coupons (upperStr "FLAT5")) (saleStoreOf res) =
         some (some couponFLAT5.use) ∧
       t.discount_amount = 0) := by
  have hres : saleTransactionOf (TransactionService.create_sale demoStore 0
      [{ item_id := "SAL001", quantity := 5 }] PaymentMethod.cash 60
      (some "FLAT5") none) =
      some { saleExampleTransaction with coupon_code := some "FLAT5" } := by
    simp [TransactionService.create_sale, processSaleLines, updateItem,
          Item.remove_stock, applySaleCoupon, upperStr, upperChar,
          resolveCustomer, Transaction.calculate_totals, Transaction.apply_payment,
          sumLineTotals, saleTransactionOf, demoStore, itemSAL001, couponFLAT5,
          Coupon.is_valid, Coupon.is_expired, Coupon.is_usage_exceeded,
          Coupon.use, saleExampleTransaction]
    norm_num
  refine ⟨{ saleExampleTransaction with coupon_code := some "FLAT5" }, hres, ?_⟩
  have := create_sale_fixed_coupon_discount_zero demoStore 0
    [{ item_id := "SAL001", quantity := 5 }] PaymentMethod.cash 60 "FLAT5" none
    { saleExampleTransaction with coupon_code := some "FLAT5" } couponFLAT5
    (by decide) (by decide) (by decide) (by decide) hres
  obtain ⟨h1, h2, h3⟩ := this
  exact ⟨h1, h2, h3⟩

/-- Expected settled transaction of the `PCT10` sale below minimum
purchase: the 10-percent discount IS applied (4.995 on 49.95). -/
def pct10SaleTransaction : Transaction :=
  { transaction_type := TransactionType.sale,
    coupon_code := some "PCT10",
    subtotal := 4995 / 100,
    discount_amount := 4995 / 1000,
    tax_amount := 35964 / 10000,
    total := 485514 / 10000,
    payment_method := PaymentMethod.cash,
    amount_tendered := 60,
    change_given := 114486 / 10000,
    line_items := [{ item_id := "SAL001", quantity := 5, unit_price := 999 / 100 }] }

/-- Counterexample to C4 as stated: coupon `PCT10` has minimum_purchase
100 > subtotal 49.95, yet the settled sale associates it, increments its
usage counter and applies a 4.995 discount — `create_sale` checks only
`is_valid()`, which ignores `minimum_purchase`. -/
theorem create_sale_min_purchase_counterexample :
    couponPCT10.is_valid 0 = true ∧
    couponPCT10.minimum_purchase = 100 ∧
    (4995 / 100 : ℚ) < 100 ∧
    Option.map Transaction.discount_amount
        (saleTransactionOf (TransactionService.create_sale demoStore 0
          [{ item_id := "SAL001", quantity := 5 }] PaymentMethod.cash 60
          (some "PCT10") none)) = some (4995 / 1000) ∧
    Option.map Transaction.coupon_code
        (saleTransactionOf (TransactionService.create_sale demoStore 0
          [{ item_id := "SAL001", quantity := 5 }] PaymentMethod.cash 60
          (some "PCT10") none)) = some (some "PCT10") ∧
    Option.map (fun s => Option.map Coupon.times_used (s.coupons "PCT10"))
        (saleStoreOf (TransactionService.create_sale demoStore 0
          [{ item_id := "SAL001", quantity := 5 }] PaymentMethod.cash 60
          (some "PCT10") none)) = some (some 1) ∧
    (4995 / 1000 : ℚ) ≠ 0 := by
  refine ⟨by decide, by decide, by norm_num, ?_, ?_, ?_, by norm_num⟩
  all_goals
    simp [TransactionService.create_sale, processSaleLines, updateItem,
          Item.remove_stock, applySaleCoupon, upperStr, upperChar,
          resolveCustomer, Transaction.calculate_totals, Transaction.apply_payment,
          sumLineTotals, saleTransactionOf, saleStoreOf, demoStore, itemSAL001,
          couponPCT10, Coupon.is_valid, Coupon.is_expired,
          Coupon.is_usage_exceeded, Coupon.use]
  · norm_num

/-- Claim C4 (amended): `create_sale` never consults the coupon's
minimum_purchase threshold: a coupon that is `is_valid` (active, not
expired, usage not exceeded) is associated with the transaction and marked
used even when minimum_purchase exceeds the sale's subtotal, and the
percentage discount subtotal × percent/100 is applied whenever the coupon
is still `is_valid` after its own usage increment; only when that use
exhausted the usage cap (or the coupon otherwise became invalid by totals
time) does the discount stay 0 — in no case because of the minimum. -/
theorem create_sale_ignores_minimum_purchase (st : Store) (now : ℤ)
    (lines : List SaleLine) (pm : PaymentMethod) (amt : ℚ) (c : String)
    (phone : Option String) (t : Transaction) (cp : Coupon)
    (hc : c ≠ "")
    (hcp : st.coupons (upperStr c) = some cp)
    (hvalid : cp.is_valid now = true)
    (hmin : sumLineTotals t.line_items < cp.minimum_purchase)
    (h : saleTransactionOf
        (TransactionService.create_sale st now lines pm amt (some c) phone) =
      some t) :
    t.coupon_code = some (upperStr c) ∧
    Option.map (fun s => s.coupons (upperStr c))
        (saleStoreOf
          (TransactionService.create_sale st now lines pm amt (some c) phone)) =
      some (some cp.use) ∧
    t.discount_amount =
      (if cp.use.is_valid now then t.subtotal * (cp.discount_percent / 100)
       else 0) := by
  obtain ⟨s, heq⟩ := saleTransactionOf_eq_some _ t h
  obtain ⟨items2, tis, hrec, ht, hitems, hcoup, _⟩ :=
    create_sale_ok_elim st now lines pm amt (some c) phone s t heq
  have hstep : applySaleCoupon st.coupons now (some c) =
      (fun k => if k = upperStr c then some cp.use else st.coupons k,
       some (upperStr c), some cp.use) := by
    unfold applySaleCoupon
    simp [hc, hcp, hvalid]
  subst ht
  refine ⟨?_, ?_, ?_⟩
  · simp [Transaction.apply_payment, Transaction.calculate_totals, hstep]
  · rw [heq]
    simp [saleStoreOf, hcoup, hstep]
  · cases hv2 : cp.use.is_valid now with
    | true =>
      simp only [Coupon.use] at hv2
      simp [Transaction.apply_payment, Transaction.calculate_totals, hstep,
            Coupon.use, hv2]
    | false =>
      simp only [Coupon.use] at hv2
      simp [Transaction.apply_payment, Transaction.calculate_totals, hstep,
            Coupon.use, hv2]

/-- Witness for C4's amended theorem: the `PCT10` sale on the concrete
store, 49.95 below the 100 minimum. -/
theorem create_sale_ignores_minimum_purchase_witness :
    ∃ t, saleTransactionOf (TransactionService.create_sale demoStore 0
        [{ item_id := "SAL001", quantity := 5 }] PaymentMethod.cash 60
        (some "PCT10") none) = some t ∧
      t.coupon_code = some (upperStr "PCT10") ∧
      Option.map (fun s => s.coupons (upperStr "PCT10"))
          (saleStoreOf (TransactionService.create_sale demoStore 0
            [{ item_id := "SAL001", quantity := 5 }] PaymentMethod.cash 60
            (some "PCT10") none)) = some (some couponPCT10.use) ∧
      t.discount_amount =
        (if couponPCT10.use.is_valid 0 then
           t.subtotal * (couponPCT10.discount_percent / 100)
         else 0) := by
  have hres : saleTransactionOf (TransactionService.create_sale demoStore 0
      [{ item_id := "SAL001", quantity := 5 }] PaymentMethod.cash 60
      (some "PCT10") none) = some pct10SaleTransaction := by
    simp [TransactionService.create_sale, processSaleLines, updateItem,
          Item.remove_stock, applySaleCoupon, upperStr, upperChar,
          resolveCustomer, Transaction.calculate_totals, Transaction.apply_payment,
          sumLineTotals, saleTransactionOf, demoStore, itemSAL001, couponPCT10,
          Coupon.is_valid, Coupon.is_expired, Coupon.is_usage_exceeded,
          Coupon.use, pct10SaleTransaction]
    norm_num
  refine ⟨pct10SaleTransaction, hres, ?_⟩
  exact create_sale_ignores_minimum_purchase demoStore 0
    [{ item_id := "SAL001", quantity := 5 }] PaymentMethod.cash 60 "PCT10" none
    pct10SaleTransaction couponPCT10
    (by decide) (by decide) (by decide)
    (by norm_num [sumLineTotals, pct10SaleTransaction, couponPCT10]) hres

/-- The record rentalEx after its return is processed at day 10: flagged returned
with late_fee 0 — the code computes the fee AFTER setting `returned`,
and `is_overdue` reports false for a returned rental. -/
def rentalExReturned : Rental :=
  { rentalEx with returned := true,
                  return_date := some (10 * 86400),
                  late_fee := 0 }

/-- The item itemRENT01 restocked by the rental's 2 units. -/
def itemRENT01Restocked : Item :=
  { itemRENT01 with quantity := 12 }

/-- Claim C5 (code bug): returning `rentalEx` (2 units, due day 7) at day
10 with fee 2.00/day should charge 3 × 2.00 × 2 = 12.00 — and indeed the
unreturned record computes `calculate_late_fee = 12` — but
`Rental.process_return` sets `returned = True` BEFORE computing the fee,
so `is_overdue` is false and the recorded late_fee is 0, not 12.  The
return flag, return date and the +2 restock do happen. -/
theorem rental_return_late_fee_zeroed_bug :
    rentalEx.returned = false ∧
    rentalEx.days_overdue (10 * 86400) = 3 ∧
    rentalEx.calculate_late_fee (10 * 86400) 2 = 12 ∧
    rentalEx.process_return itemRENT01 (10 * 86400) 2 =
      Except.ok (rentalExReturned, itemRENT01Restocked, 0) ∧
    (12 : ℚ) ≠ 0 := by
  refine ⟨by decide, by decide, ?_, ?_, by norm_num⟩
  · have h3 : rentalEx.days_overdue (10 * 86400) = 3 := by decide
    rw [Rental.calculate_late_fee, h3]
    norm_num [rentalEx]
  · simp [Rental.process_return, Item.add_stock, Rental.calculate_late_fee,
          Rental.days_overdue, Rental.is_overdue, rentalEx, itemRENT01,
          rentalExReturned, itemRENT01Restocked]

/-- Claim C6: once a rental has been returned, a second
`RentalService.process_return` on it is rejected with the AlreadyReturned
error before any mutation — no late fee change, no restock; and on the
engine path, after a successful return of the concrete store's only active
rental, a second `process_return` for the same customer and item fails
(no active rental remains), leaving the single +2 restock and the empty
transaction table of the first call in place. -/
theorem rental_double_return_rejected :
    (∀ (r : Rental) (it : Item) (now : ℤ) (fee : ℚ) (r2 : Rental)
        (it2 : Item) (f : ℚ),
      RentalService.process_return r it now fee = Except.ok (r2, it2, f) →
        r2.returned = true ∧
        ∀ (it3 : Item) (now2 : ℤ) (fee2 : ℚ),
          RentalService.process_return r2 it3 now2 fee2 =
            Except.error "Rental has already been returned") ∧
    (Option.map
        (fun s => returnErrorOf
          (TransactionService.process_return s (10 * 86400) "5551234" "RENT01" 1))
        (returnStoreOf (TransactionService.process_return demoStoreRented
          (10 * 86400) "5551234" "RENT01" 1)) =
      some (some "No active rental found for this item") ∧
     Option.map (fun s => qtyAt s.items "RENT01")
        (returnStoreOf (TransactionService.process_return demoStoreRented
          (10 * 86400) "5551234" "RENT01" 1)) = some 12 ∧
     Option.map (fun s => s.transactions)
        (returnStoreOf (TransactionService.process_return demoStoreRented
          (10 * 86400) "5551234" "RENT01" 1)) = some []) := by
  constructor
  · intro r it now fee r2 it2 f h
    unfold RentalService.process_return at h
    split at h
    · exact absurd h (by simp)
    · obtain ⟨_, _, hr2, _⟩ := rental_process_return_ok_elim r it now fee r2 it2 f h
      subst hr2
      refine ⟨rfl, ?_⟩
      intro it3 now2 fee2
      unfold RentalService.process_return
      rfl
  · refine ⟨?_, ?_, ?_⟩
    all_goals
      simp [TransactionService.process_return, findFirstRental,
            updateFirstRental, updateItem, returnStoreOf, returnErrorOf,
            Rental.process_return, Rental.calculate_late_fee,
            Rental.days_overdue, Rental.is_overdue, Item.add_stock, qtyAt,
            demoStoreRented, demoStore, rentalEx, itemRENT01, itemSAL001]

/-- Witness for C6: the first return of `rentalEx` succeeds and the second
call on the returned record is rejected with AlreadyReturned. -/
theorem rental_double_return_rejected_witness :
    rentalExReturned.returned = true ∧
    ∀ (it3 : Item) (now2 : ℤ) (fee2 : ℚ),
      RentalService.process_return rentalExReturned it3 now2 fee2 =
        Except.error "Rental has already been returned" :=
  rental_double_return_rejected.1 rentalEx itemRENT01 (10 * 86400) 2
    rentalExReturned itemRENT01Restocked 0
    (by
      simp [RentalService.process_return, Rental.process_return,
            Item.add_stock, Rental.calculate_late_fee, Rental.days_overdue,
            Rental.is_overdue, rentalEx, itemRENT01, rentalExReturned,
            itemRENT01Restocked])

/-- Claim C10: the engine-level `process_return` never reads its
`quantity` argument — two calls differing only in quantity return the same
result — and a successful call returns the customer's first active rental
for the item whole: the returned record keeps the rental's own quantity,
the item is restocked by exactly `rental.quantity` units, and the reported
fee is the record's late fee.  No partial-quantity return exists. -/
theorem engine_return_quantity_independent :
    (∀ (st : Store) (now : ℤ) (phone key : String) (q1 q2 : ℤ),
      TransactionService.process_return st now phone key q1 =
        TransactionService.process_return st now phone key q2) ∧
    (∀ (st : Store) (now : ℤ) (phone key : String) (q : ℤ) (r r2 : Rental),
      findFirstRental phone key st.rentals = some r →
      returnRentalOf (TransactionService.process_return st now phone key q) =
        some r2 →
        r2.quantity = r.quantity ∧
        r2.returned = true ∧
        returnFeeOf (TransactionService.process_return st now phone key q) =
          some r2.late_fee ∧
        Option.map (fun s => qtyAt s.items key)
            (returnStoreOf (TransactionService.process_return st now phone key q)) =
          some (qtyAt st.items key + r.quantity)) := by
  constructor
  · intro st now phone key q1 q2
    rfl
  · intro st now phone key q r r2 hfind h
    obtain ⟨s, fee, tr, heq⟩ := returnRentalOf_eq_some _ r2 h
    obtain ⟨_hcust, it, r1, it2, hit, hfind1, hpr, hitems, _hrent, _htr⟩ :=
      engine_process_return_ok_elim st now phone key q s r2 fee tr heq
    rw [hfind] at hfind1
    injection hfind1 with hfind1
    subst hfind1
    obtain ⟨hq0, hit2, hr2, hfee⟩ :=
      rental_process_return_ok_elim r it now 2 r2 it2 fee hpr
    subst hr2
    refine ⟨rfl, rfl, ?_, ?_⟩
    · rw [heq]
      unfold returnFeeOf
      rw [hfee]
    · rw [heq]
      unfold returnStoreOf
      simp only [Option.map_some']
      rw [hitems, hit2]
      unfold qtyAt updateItem
      rw [hit]
      simp

/-- Witness for C10: the concrete store's rental of 2 drills, returned
with quantity argument 1 — the whole rental of 2 units is returned and
restocked. -/
theorem engine_return_quantity_independent_witness :
    rentalExReturned.quantity = rentalEx.quantity ∧
    rentalExReturned.returned = true ∧
    returnFeeOf (TransactionService.process_return demoStoreRented
        (10 * 86400) "5551234" "RENT01" 1) = some rentalExReturned.late_fee ∧
    Option.map (fun s => qtyAt s.items "RENT01")
        (returnStoreOf (TransactionService.process_return demoStoreRented
          (10 * 86400) "5551234" "RENT01" 1)) =
      some (qtyAt demoStoreRented.items "RENT01" + rentalEx.quantity) :=
  engine_return_quantity_independent.2 demoStoreRented (10 * 86400)
    "5551234" "RENT01" 1 rentalEx rentalExReturned
    (by decide)
    (by
      simp [TransactionService.process_return, findFirstRental,
            returnRentalOf, Rental.process_return, Rental.calculate_late_fee,
            Rental.days_overdue, Rental.is_overdue, Item.add_stock, updateItem,
            updateFirstRental, demoStoreRented, demoStore, rentalEx,
            itemRENT01, itemSAL001, rentalExReturned])

/-- Claim C8: stock invariants.  (1) A sequence of successful
service-level add/remove calls lands exactly on initial + Σadds − Σremoves
and never leaves quantity negative; (2) removing more than the available
stock is rejected with an error, never clamped or applied; (3)–(5) sale
settlement, rental settlement and rental return each preserve
nonnegativity of every item's stock. -/
theorem stock_invariants :
    (∀ (it : Item) (ops : List StockOp) (it2 : Item),
      0 ≤ it.quantity → applyStockOps it ops = Except.ok it2 →
        it2.quantity = it.quantity + stockOpsNet ops ∧ 0 ≤ it2.quantity) ∧
    (∀ (it : Item) (n : ℤ), it.quantity < n →
      ∃ e, InventoryService.remove_stock it n = Except.error e) ∧
    (∀ (st : Store) (now : ℤ) (lines : List SaleLine) (pm : PaymentMethod)
        (amt : ℚ) (cc phone : Option String),
      (∀ k, 0 ≤ qtyAt st.items k) →
      ∀ k q, Option.map (fun s => qtyAt s.items k)
          (saleStoreOf
            (TransactionService.create_sale st now lines pm amt cc phone)) =
          some q →
        0 ≤ q) ∧
    (∀ (st : Store) (now : ℤ) (phone : String) (lines : List SaleLine)
        (days : ℤ) (pm : PaymentMethod) (amt : ℚ),
      (∀ k, 0 ≤ qtyAt st.items k) →
      ∀ k q, Option.map (fun s => qtyAt s.items k)
          (saleStoreOf
            (TransactionService.create_rental st now phone lines days pm amt)) =
          some q →
        0 ≤ q) ∧
    (∀ (st : Store) (now : ℤ) (phone key : String) (qq : ℤ),
      (∀ k, 0 ≤ qtyAt st.items k) →
      ∀ k q, Option.map (fun s => qtyAt s.items k)
          (returnStoreOf
            (TransactionService.process_return st now phone key qq)) =
          some q →
        0 ≤ q) := by
  refine ⟨?_, ?_, ?_, ?_, ?_⟩
  · intro it ops it2 h0 h
    induction ops generalizing it with
    | nil =>
      unfold applyStockOps at h
      injection h with h
      subst h
      unfold stockOpsNet
      constructor
      · omega
      · exact h0
    | cons op rest ih =>
      cases op with
      | add n =>
        unfold applyStockOps at h
        cases hsvc : InventoryService.add_stock it n with
        | error e => rw [hsvc] at h; exact absurd h (by simp)
        | ok it3 =>
          rw [hsvc] at h
          obtain ⟨hn, hit3⟩ := service_add_stock_ok_elim it it3 n hsvc
          obtain ⟨ha, hb⟩ := ih it3 (by rw [hit3]; simp; omega) h
          rw [hit3] at ha
          simp at ha
          unfold stockOpsNet
          constructor
          · omega
          · exact hb
      | remove n =>
        unfold applyStockOps at h
        cases hsvc : InventoryService.remove_stock it n with
        | error e => rw [hsvc] at h; exact absurd h (by simp)
        | ok it3 =>
          rw [hsvc] at h
          obtain ⟨hn, hnq, hit3⟩ := service_remove_stock_ok_elim it it3 n hsvc
          obtain ⟨ha, hb⟩ := ih it3 (by rw [hit3]; simp; omega) h
          rw [hit3] at ha
          simp at ha
          unfold stockOpsNet
          constructor
          · omega
          · exact hb
  · intro it n hlt
    unfold InventoryService.remove_stock
    by_cases h1 : n ≤ 0
    · exact ⟨"Amount must be positive", by simp [h1]⟩
    · have h2 : n > it.quantity := by omega
      exact ⟨"Insufficient stock", by simp [h1, h2]⟩
  · intro st now lines pm amt cc phone h0 k q hmap
    cases ho : saleStoreOf (TransactionService.create_sale st now lines pm amt cc phone) with
    | none => rw [ho] at hmap; exact absurd hmap (by simp)
    | some s =>
      rw [ho] at hmap
      simp only [Option.map_some'] at hmap
      injection hmap with hmap
      obtain ⟨t, heq⟩ := saleStoreOf_eq_some _ s ho
      obtain ⟨items2, tis, hrec, _ht, hitems, _⟩ :=
        create_sale_ok_elim st now lines pm amt cc phone s t heq
      rw [← hmap, hitems]
      exact processSaleLines_nonneg lines st.items items2 tis hrec h0 k
  · intro st now phone lines days pm amt h0 k q hmap
    cases ho : saleStoreOf (TransactionService.create_rental st now phone lines days pm amt) with
    | none => rw [ho] at hmap; exact absurd hmap (by simp)
    | some s =>
      rw [ho] at hmap
      simp only [Option.map_some'] at hmap
      injection hmap with hmap
      obtain ⟨t, heq⟩ := saleStoreOf_eq_some _ s ho
      obtain ⟨_hphone, items2, tis, rs, hrec, _ht, hitems, _⟩ :=
        create_rental_ok_elim st now phone lines days pm amt s t heq
      rw [← hmap, hitems]
      exact processRentalLines_nonneg lines phone now days st.items items2 tis rs hrec h0 k
  · intro st now phone key qq h0 k q hmap
    cases ho : returnStoreOf (TransactionService.process_return st now phone key qq) with
    | none => rw [ho] at hmap; exact absurd hmap (by simp)
    | some s =>
      rw [ho] at hmap
      simp only [Option.map_some'] at hmap
      injection hmap with hmap
      obtain ⟨rr, fee, tr, heq⟩ := returnStoreOf_eq_some _ s ho
      obtain ⟨_hcust, it, r1, it2, hit, _hfind, hpr, hitems, _⟩ :=
        engine_process_return_ok_elim st now phone key qq s rr fee tr heq
      obtain ⟨hq0, hit2, _⟩ :=
        rental_process_return_ok_elim r1 it now 2 rr it2 fee hpr
      rw [← hmap, hitems]
      unfold qtyAt updateItem
      by_cases hk : k = key
      · subst hk
        rw [if_pos rfl, hit2]
        simp
        have hnn := h0 k
        unfold qtyAt at hnn
        rw [hit] at hnn
        simp at hnn
        omega
      · rw [if_neg hk]
        exact h0 k

/-- Witness for C8, instantiating each conjunct on the concrete store:
+5 then −3 on `SAL001` lands on 52; removing 100 from stock 50 errors;
the worked sale, rental and return all keep `SAL001`/`RENT01` stock
nonnegative. -/
theorem stock_invariants_witness :
    (({ itemSAL001 with quantity := 52 } : Item).quantity =
        itemSAL001.quantity + stockOpsNet [StockOp.add 5, StockOp.remove 3] ∧
      (0 : ℤ) ≤ ({ itemSAL001 with quantity := 52 } : Item).quantity) ∧
    (∃ e, InventoryService.remove_stock itemSAL001 100 = Except.error e) ∧
    (0 : ℤ) ≤ 45 ∧ (0 : ℤ) ≤ 8 ∧ (0 : ℤ) ≤ 12 := by
  refine ⟨?_, ?_, ?_, ?_, ?_⟩
  · exact stock_invariants.1 itemSAL001 [StockOp.add 5, StockOp.remove 3]
      { itemSAL001 with quantity := 52 } (by decide) (by rfl)
  · exact stock_invariants.2.1 itemSAL001 100 (by decide)
  · refine stock_invariants.2.2.1 demoStore 0
      [{ item_id := "SAL001", quantity := 5 }] PaymentMethod.cash 60 none none
      demoStore_items_nonneg "SAL001" 45 ?_
    simp [TransactionService.create_sale, processSaleLines, updateItem,
          Item.remove_stock, applySaleCoupon, resolveCustomer,
          Transaction.calculate_totals, Transaction.apply_payment,
          sumLineTotals, saleStoreOf, qtyAt, demoStore, itemSAL001]
  · refine stock_invariants.2.2.2.1 demoStore 0 "5551234"
      [{ item_id := "RENT01", quantity := 2 }] 7 PaymentMethod.cash 20
      demoStore_items_nonneg "RENT01" 8 ?_
    simp [TransactionService.create_rental, processRentalLines, updateItem,
          Item.remove_stock, resolveCustomer, Transaction.calculate_totals,
          Transaction.apply_payment, sumLineTotals, saleStoreOf, qtyAt,
          demoStore, itemRENT01]
  · refine stock_invariants.2.2.2.2 demoStoreRented (10 * 86400)
      "5551234" "RENT01" 1 demoStore_items_nonneg "RENT01" 12 ?_
    simp [TransactionService.process_return, findFirstRental,
          updateFirstRental, updateItem, returnStoreOf, Rental.process_return,
          Rental.calculate_late_fee, Rental.days_overdue, Rental.is_overdue,
          Item.add_stock, qtyAt, demoStoreRented, demoStore, rentalEx,
          itemRENT01, itemSAL001]

/-- Claim C7: for every coupon satisfying the creation-time constraints of
`CouponService.create_coupon` (percentage in [0,100], amounts nonnegative,
exactly one discount type positive) and every purchase amount ≥ 0,
`calculate_discount amount ≤ amount`, and the discount is 0 whenever the
coupon is not valid or the amount is below the minimum purchase. -/
theorem coupon_calculate_discount_bounded (c : Coupon) (now : ℤ) (amount : ℚ)
    (hp0 : 0 ≤ c.discount_percent) (hp100 : c.discount_percent ≤ 100)
    (ha0 : 0 ≤ c.discount_amount)
    (hone : (0 < c.discount_percent ∧ c.discount_amount = 0) ∨
            (0 < c.discount_amount ∧ c.discount_percent = 0))
    (hamt : 0 ≤ amount) :
    c.calculate_discount now amount ≤ amount ∧
    ((c.is_valid now = false ∨ amount < c.minimum_purchase) →
      c.calculate_discount now amount = 0) := by
  constructor
  · unfold Coupon.calculate_discount
    split
    · exact hamt
    · split
      · exact mul_le_of_le_one_right hamt ((div_le_one (by norm_num)).mpr hp100)
      · split
        · exact min_le_right _ _
        · exact hamt
  · intro hbad
    unfold Coupon.calculate_discount
    have : c.can_apply_to_amount now amount = false := by
      unfold Coupon.can_apply_to_amount
      rcases hbad with hv | hm
      · simp [hv]
      · simp
        intro _
        exact hm
    simp [this]

/-- Witness for C7 at a concrete coupon: `SAVE10`, a 10-percent coupon, on
purchase amount 100, instantiating every hypothesis of the theorem. -/
theorem coupon_calculate_discount_bounded_witness :
    ({ code := "SAVE10", discount_percent := 10 } : Coupon).calculate_discount 0 100 ≤ 100 ∧
    ((({ code := "SAVE10", discount_percent := 10 } : Coupon).is_valid 0 = false ∨
        (100 : ℚ) < ({ code := "SAVE10", discount_percent := 10 } : Coupon).minimum_purchase) →
      ({ code := "SAVE10", discount_percent := 10 } : Coupon).calculate_discount 0 100 = 0) :=
  coupon_calculate_discount_bounded
    { code := "SAVE10", discount_percent := 10 } 0 100
    (by norm_num) (by norm_num) (by norm_num) (Or.inl (by norm_num)) (by norm_num)

end POS
